import Mathlib

/-!
# Verification of the QuizzBot game-session state machine

Shallow embedding of `src/class/quizzbot.js`: the option processing of the
constructor, the question-bank text loader, the session state (running flag,
current question, inactivity counter, the three timer slots), the commands
(`start`, `stop`, `ask`), the answer handler, the question cycle `game`, and
the message-listener guard.  Timers are modelled explicitly: `setTimeout`
appends a pending timer with a fresh id and returns the id (the handle stored
in the corresponding slot), `clearTimeout` removes the pending timer with the
stored id, and an `Event.fire` step runs the body of one pending timer, which
can then no longer fire.  Code paths that dereference a JS `null`/`undefined`
(a `TypeError` at runtime) are modelled with `Except`, the error carrying the
state at the point of the throw.

`class/question.js` and `class/user.js` are not among the sources; the few
operations of theirs that the session calls (`getNextQuestion`, `isGoodAnswer`,
the per-user counters) are modelled from the spec and marked as such.
-/

namespace QuizzBot

/-! ## String primitives

The JS string operations the session uses (`split` with a one-character
separator, `trim`, `toLowerCase`, numeric coercion of a digit string) are
defined structurally over the character list of the string, so that every
definition evaluates by kernel reduction. -/

/-- JS `s.split(sep)` for a one-character separator, on the character list:
always returns at least one (possibly empty) chunk. -/
def splitChars (sep : Char) : List Char → List (List Char)
  | [] => [[]]
  | c :: cs =>
      let r := splitChars sep cs
      if c = sep then [] :: r
      else
        match r with
        | [] => [[c]]
        | h :: t => (c :: h) :: t

/-- JS `s.split(sep)` for a one-character separator. -/
def jsSplit (sep : Char) (s : String) : List String :=
  (splitChars sep s.data).map (fun cs => String.mk cs)

/-- JS `s.trim()`: strip surrounding whitespace. -/
def jsTrim (s : String) : String :=
  String.mk (((s.data.dropWhile Char.isWhitespace).reverse.dropWhile Char.isWhitespace).reverse)

/-- JS `s.toLowerCase()` (ASCII case folding). -/
def jsToLower (s : String) : String :=
  String.mk (s.data.map Char.toLower)

/-- Parse an unsigned run of decimal digits. -/
def parseDigitsAux : List Char → Nat → Option Nat
  | [], acc => some acc
  | c :: cs, acc =>
      if c.isDigit then parseDigitsAux cs (acc * 10 + (c.toNat - 48)) else none

/-- JS numeric coercion of an argument token, as used by `args[0] - 1`:
an all-digit token (with optional sign) is its value, anything else is `NaN`
(`none`). -/
def jsToInt (s : String) : Option Int :=
  match s.data with
  | [] => none
  | '-' :: cs =>
      if cs.isEmpty then none
      else (parseDigitsAux cs 0).map (fun n => -(n : Int))
  | cs => (parseDigitsAux cs 0).map (fun n => (n : Int))

/-- JS `x || d` for an optional numeric option: `undefined` and `0` are falsy. -/
def jsOr (x : Option Int) (d : Int) : Int :=
  match x with
  | none => d
  | some v => if v = 0 then d else v

/-- JS `x < b` where `x` may be `undefined` (`undefined < b` is `false`). -/
def jsLt (x : Option Int) (b : Int) : Bool :=
  match x with
  | none => false
  | some v => decide (v < b)

/-- JS `x > b` where `x` may be `undefined` (`undefined > b` is `false`). -/
def jsGt (x : Option Int) (b : Int) : Bool :=
  match x with
  | none => false
  | some v => decide (b < v)

/-- The `options` argument of the constructor: each recognized numeric option is
`none` when absent (JS `undefined`). -/
structure RawOptions where
  questionDuration : Option Int := none
  timeBetweenQuestion : Option Int := none
  timeBeforeTip : Option Int := none
  nickServPassword : Option String := none
  continuousNoAnswer : Option Int := none
deriving Repr, DecidableEq

/-- The effective options stored on `this.options`. -/
structure EffOptions where
  questionDuration : Int
  timeBetweenQuestion : Int
  timeBeforeTip : Int
  nickServPassword : Option String
  continuousNoAnswer : Int
deriving Repr, DecidableEq

/-- Line 24 of the constructor: the effective question duration,
`options.questionDuration < 10000 ? 10000 : options.questionDuration || 25000`. -/
def effQuestionDuration (o : RawOptions) : Int :=
  if jsLt o.questionDuration 10000 then 10000 else jsOr o.questionDuration 25000

/-- Option processing of the `QuizzBot` constructor (quizzbot.js lines 22-28).
`Math.floor(questionDuration / 2)` agrees with integer division here because
the effective duration is never negative. -/
def mkOptions (o : RawOptions) : EffOptions :=
  { questionDuration := effQuestionDuration o
    timeBetweenQuestion := jsOr o.timeBetweenQuestion 15000
    timeBeforeTip :=
      jsOr (if jsGt o.timeBeforeTip (effQuestionDuration o)
            then some (effQuestionDuration o / 2)
            else o.timeBeforeTip) 10000
    nickServPassword :=
      match o.nickServPassword with
      | some s => if s = "" then none else some s
      | none => none
    continuousNoAnswer := jsOr o.continuousNoAnswer 8 }

/-- A question record as built by `loadQuestions`: an answer entry is `none`
when the source stored a JS `undefined` there. -/
structure Question where
  question : String
  answers : List (Option String)
  tip : Option String := none
deriving Repr, DecidableEq

/-- One line of a `.txt` question bank (quizzbot.js lines 101-107):
`line.split('\')` into `splitedLine`, trim `splitedLine[1]` when it is
defined, and always push a question whose single answer entry is that
(possibly `undefined`) field. -/
def parseTxtLine (line : String) : Question :=
  let splitedLine := jsSplit '\\' line
  { question := splitedLine.headD ""
    answers := [(splitedLine[1]?).map jsTrim] }

/-- The `.txt` branch of `loadQuestions` (quizzbot.js lines 99-107): one
`Question` is pushed per line of the file.  The file read and the split on
`\r?\n` are I/O, so the function takes the list of lines. -/
def loadQuestionsTxt (lines : List String) : List Question :=
  lines.map parseTxtLine

/-- Modelled from the spec: `Question.getNextQuestion` lives in
`class/question.js`, which is not among the sources.  Spec section 4.3 requires
the selection policy to "guarantee it can return no question available
distinctly from a question", and Scenario A has a 3-question bank exhausted
after its 3rd round; so pool selection is modelled as a sequential cursor that
returns `none` once the pool is exhausted. -/
def getNextQuestion (qs : List Question) (cursor : Nat) : Option Question × Nat :=
  match qs[cursor]? with
  | some q => (some q, cursor + 1)
  | none => (none, cursor)

/-- Modelled from the spec: `Question.prototype.isGoodAnswer` lives in
`class/question.js`, not among the sources.  Spec section 4.1: "normalizes case
and surrounding whitespace on both candidate and each accepted answer, returns
true if any accepted answer equals the normalized candidate".  An `undefined`
answer entry matches nothing. -/
def isGoodAnswer (q : Question) (candidate : String) : Bool :=
  q.answers.any fun a =>
    match a with
    | some a => jsToLower (jsTrim a) == jsToLower (jsTrim candidate)
    | none => false

/-- A per-user record of `class/user.js` (fields as read by quizzbot.js). -/
structure UserRec where
  name : String
  points : Int := 0
  answers : Int := 0
  goodAnswers : Int := 0
  quizzStarted : Int := 0
  quizzStopped : Int := 0
deriving Repr, DecidableEq

/-- Modelled from the spec: `class/user.js` is not among the sources.  Spec
section 4.2: `getOrCreate(name, channel)` is idempotent and creates a record
with zero counters if absent.  The userlist is an object map keyed by name in
the source; its representation order is immaterial here. -/
def getUser (users : List UserRec) (name : String) : UserRec :=
  match users.find? (fun u => u.name == name) with
  | some u => u
  | none => { name := name }

/-- Store a record back into the name-keyed userlist. -/
def putUser (users : List UserRec) (u : UserRec) : List UserRec :=
  users.filter (fun v => v.name != u.name) ++ [u]

/-- The distinct chat announcements the session can emit (the i18n keys of the
source; payloads are the arguments the source passes). -/
inductive Msg
  | nextQuestionIn (sec : Int)
  | questionAsked (q : Question)
  | questionEndingIn (sec : Int)
  | tipReveal (q : Question)
  | noGoodAnswer
  | answerReveal (q : Question)
  | goodAnswer (name : String) (points : Int)
  | requestedStart (name : String)
  | startingQuizz
  | requestedStop (name : String)
  | stoppingForInactivity
  | stoppingQuizz
deriving Repr, DecidableEq

/-- Observable side effects: a chat line, or a `User.saveUserlist()` call. -/
inductive Out
  | say (chan : String) (m : Msg)
  | saved
deriving Repr, DecidableEq

/-- The body a pending timer will run: the next-question callback captures the
selected question (the closure of quizzbot.js line 124), the resolution and tip
callbacks read `self.currentQuestion` when they fire. -/
inductive TimerCb
  | nextQ (q : Question) (chan : String)
  | total (chan : String)
  | tip (chan : String)
deriving Repr, DecidableEq

/-- A timer armed by `setTimeout` and not yet fired or cancelled. -/
structure Pending where
  id : Nat
  delay : Int
  cb : TimerCb
deriving Repr, DecidableEq

/-- The mutable fields of the `QuizzBot` instance (plus the pending-timer pool,
the spec-modelled selection cursor, the userlist and the emitted outputs). -/
structure BotState where
  botName : String
  ops : List String
  options : EffOptions
  questions : List Question
  running : Bool
  currentQuestion : Option Question
  continuousNoAnswerCount : Int
  nextQuestionTimer : Option Nat
  currentTotalTimer : Option Nat
  currentEndingSoonTimer : Option Nat
  pending : List Pending
  nextTimerId : Nat
  cursor : Nat
  users : List UserRec
  outputs : List Out
deriving Repr, DecidableEq

/-- `user.isOp(self, to)`: channel-operator status, determined by the
transport; modelled as membership in a fixed operator list. -/
def isOp (s : BotState) (name : String) : Bool := s.ops.contains name

/-- `self.ircBot.say(chan, ...)`: append one chat line to the outputs. -/
def say (s : BotState) (chan : String) (m : Msg) : BotState :=
  { s with outputs := s.outputs ++ [Out.say chan m] }

/-- `User.saveUserlist()`: record the persistence call. -/
def saveUserlist (s : BotState) : BotState :=
  { s with outputs := s.outputs ++ [Out.saved] }

/-- Drop the pending timer with the given handle (if any) from a timer pool. -/
def removeTimer (pnd : List Pending) (h : Option Nat) : List Pending :=
  match h with
  | none => pnd
  | some i => pnd.filter (fun p => p.id != i)

/-- `clearTimeout(handle)`: remove the pending timer with that id, if it is
still pending; `clearTimeout(null)` is a no-op as in Node. -/
def clearTimeout (s : BotState) (h : Option Nat) : BotState :=
  { s with pending := removeTimer s.pending h }

/-- `setTimeout(cb, delay)`: arm a fresh timer and return its handle. -/
def setTimeout (s : BotState) (cb : TimerCb) (delay : Int) : BotState × Nat :=
  ({ s with
      pending := s.pending ++ [{ id := s.nextTimerId, delay := delay, cb := cb }]
      nextTimerId := s.nextTimerId + 1 }, s.nextTimerId)

/-- quizzbot.js lines 148-153: null the current question and cancel the two
question timers.  Note it does NOT cancel `nextQuestionTimer`. -/
def clearGame (s : BotState) : BotState :=
  let s1 := { s with currentQuestion := none }
  let s2 := clearTimeout s1 s1.currentEndingSoonTimer
  clearTimeout s2 s2.currentTotalTimer

/-- The source's `user !== null && !user.isOp(self, to)` guard. -/
def opRejected (s : BotState) (user : Option String) : Bool :=
  match user with
  | some u => !(isOp s u)
  | none => false

/-- quizzbot.js lines 304-324.  A `none` user is the internal auto-stop of the
question cycle. -/
def stopCommand (s : BotState) (user : Option String) (chan : String) : BotState :=
  if s.running then
    if opRejected s user then s
    else
      let s1 := { s with running := false }
      let s2 := clearGame s1
      let s3 := clearTimeout s2 s2.nextQuestionTimer
      let s4 : BotState :=
        match user with
        | some uname =>
            let u := getUser s3.users uname
            let s' := { s3 with users := putUser s3.users { u with quizzStopped := u.quizzStopped + 1 } }
            say s' chan (Msg.requestedStop uname)
        | none => s3
      let s5 :=
        if s4.options.continuousNoAnswer ≤ s4.continuousNoAnswerCount then
          say s4 chan Msg.stoppingForInactivity
        else
          say s4 chan Msg.stoppingQuizz
      saveUserlist s5
  else s

/-- The question cycle, quizzbot.js lines 113-146.  The `user` and `message`
parameters of the source are dead in this body (they are only forwarded, and
`stopCommand` is invoked with a null user), so they are omitted.  The
`nextQuestionIn` payload is the source's `timeBetweenQuestion / 1000`. -/
def game (s : BotState) (chan : String) (forcedQuestion : Option Question) : BotState :=
  let sel :=
    match forcedQuestion with
    | none => getNextQuestion s.questions s.cursor
    | some q => (some q, s.cursor)
  let s0 := { s with cursor := sel.2 }
  match sel.1 with
  | some nextQuestion =>
      if s0.continuousNoAnswerCount < s0.options.continuousNoAnswer then
        let s1 := say s0 chan (Msg.nextQuestionIn (s0.options.timeBetweenQuestion / 1000))
        let p := setTimeout s1 (TimerCb.nextQ nextQuestion chan) s1.options.timeBetweenQuestion
        { p.1 with nextQuestionTimer := some p.2 }
      else
        stopCommand s0 none chan
  | none => stopCommand s0 none chan

/-- Body of the `nextQuestionTimer` callback (quizzbot.js lines 124-141):
activate the captured question, present it, and arm the resolution timer at
`questionDuration` and the tip timer at `questionDuration - timeBeforeTip`. -/
def fireNextQ (s : BotState) (q : Question) (chan : String) : BotState :=
  let s1 := { s with currentQuestion := some q }
  let s2 := say s1 chan (Msg.questionAsked q)
  let p := setTimeout s2 (TimerCb.total chan) s2.options.questionDuration
  let s3 := { p.1 with currentTotalTimer := some p.2 }
  let p2 := setTimeout s3 (TimerCb.tip chan)
              (s3.options.questionDuration - s3.options.timeBeforeTip)
  { p2.1 with currentEndingSoonTimer := some p2.2 }

/-- Body of the resolution (`currentTotalTimer`) callback (quizzbot.js lines
127-134).  It dereferences `self.currentQuestion`; firing with no current
question is the JS `TypeError` (the error carries the state at the throw). -/
def fireTotal (s : BotState) (chan : String) : Except BotState BotState :=
  let s1 := say s chan Msg.noGoodAnswer
  match s1.currentQuestion with
  | none => Except.error s1
  | some q =>
      let s2 := say s1 chan (Msg.answerReveal q)
      let s3 := { s2 with continuousNoAnswerCount := s2.continuousNoAnswerCount + 1 }
      let s4 := clearGame s3
      let s5 := saveUserlist s4
      Except.ok (game s5 chan none)

/-- Body of the tip (`currentEndingSoonTimer`) callback (quizzbot.js lines
136-139); it also dereferences `self.currentQuestion`. -/
def fireTip (s : BotState) (chan : String) : Except BotState BotState :=
  let s1 := say s chan (Msg.questionEndingIn (s.options.timeBeforeTip / 1000))
  match s1.currentQuestion with
  | none => Except.error s1
  | some q => Except.ok (say s1 chan (Msg.tipReveal q))

/-- quizzbot.js lines 251-270.  The `isGoodAnswer(message, callback)` of the
source invokes its callback synchronously.  The user-counter methods are
spec-modelled (user.js is not among the sources): per spec Scenario C a correct
answer is points+1, correctAnswers+1, totalAnswers+1 (`incrementPoints` then
`plusGoodAnswer`), and a wrong answer is totalAnswers+1 (`plusAnswer`). -/
def handleAnswer (s : BotState) (userName chan message : String) : BotState :=
  match s.currentQuestion with
  | none => s
  | some q =>
      if isGoodAnswer q message then
        let u0 := getUser s.users userName
        let u1 := { u0 with points := u0.points + 1 }
        let u2 := { u1 with goodAnswers := u1.goodAnswers + 1, answers := u1.answers + 1 }
        let s1 := { s with users := putUser s.users u2 }
        let s2 := say s1 chan (Msg.goodAnswer userName u2.points)
        let s3 := say s2 chan (Msg.answerReveal q)
        let s4 := { s3 with continuousNoAnswerCount := 0 }
        let s5 := clearGame s4
        let s6 := saveUserlist s5
        game s6 chan none
      else
        let u0 := getUser s.users userName
        { s with users := putUser s.users { u0 with answers := u0.answers + 1 } }

/-- quizzbot.js lines 281-293.  Note: the source performs NO operator check
here; and with a null user the first `say` dereferences `user.name`, raising a
`TypeError` after `running` was already set to true (the error carries the
state at the throw). -/
def startCommand (s : BotState) (user : Option String) (chan : String) (noGame : Bool) :
    Except BotState BotState :=
  if s.running then Except.ok s
  else
    let s1 := { s with running := true }
    match user with
    | none => Except.error s1
    | some uname =>
        let s2 := say s1 chan (Msg.requestedStart uname)
        let s3 := say s2 chan Msg.startingQuizz
        let u := getUser s3.users uname
        let s4 := { s3 with users := putUser s3.users { u with quizzStarted := u.quizzStarted + 1 } }
        let s5 := { s4 with continuousNoAnswerCount := 0 }
        if noGame then Except.ok s5 else Except.ok (game s5 chan none)

/-- The JS `questions[args[0] - 1]` with a string argument: a non-numeric
argument gives `NaN` and an out-of-range or sub-1 index gives `undefined`
(here `none`). -/
def jsIndex (qs : List Question) (arg : Option Int) : Option Question :=
  match arg with
  | some n => if 1 ≤ n then qs[(n - 1).toNat]? else none
  | none => none

/-- quizzbot.js lines 375-385: operator gate, internal start (with `noGame`)
when not running, then `clearGame` and re-entry into `game` with
`questions[args[0] - 1]` as the forced question. -/
def askQuestionCommand (s : BotState) (user : Option String) (chan : String) (arg : Option Int) :
    Except BotState BotState :=
  if opRejected s user then Except.ok s
  else if s.running then
    let s1 := clearGame s
    Except.ok (game s1 chan (jsIndex s1.questions arg))
  else
    match startCommand s user chan true with
    | Except.error e => Except.error e
    | Except.ok s' =>
        let s1 := clearGame s'
        Except.ok (game s1 chan (jsIndex s1.questions arg))

/-- quizzbot.js lines 209-243.  The commands other than `!start`, `!stop` and
`!ask` (`!lang`, `!stats`, `!top`, `!help`, `!say`, `!test`) only produce chat
or locale output and never touch the session state modelled here; unrecognized
commands are silently ignored. -/
def handleCommand (s : BotState) (userName chan message : String) :
    Except BotState BotState :=
  let parts := jsSplit ' ' message
  let command := parts.headD ""
  let args := parts.tail
  if command = "!start" then startCommand s (some userName) chan false
  else if command = "!stop" then Except.ok (stopCommand s (some userName) chan)
  else if command = "!ask" then
    askQuestionCommand s (some userName) chan ((args.head?).bind jsToInt)
  else Except.ok s

/-- Which handler the message listener routes a chat line to. -/
inductive Dispatch
  | dnone
  | dcommand
  | danswer
deriving Repr, DecidableEq

/-- The message-listener guard (quizzbot.js lines 70-78): a command when the
sender is not the bot, the text is longer than one character and starts with
`!`; otherwise an answer when the session is running with a current question
and the sender is not the bot; otherwise nothing. -/
def listenerDispatch (botName : String) (running : Bool) (currentQuestion : Option Question)
    (sender message : String) : Dispatch :=
  if sender ≠ botName ∧ 1 < message.length ∧ message.front = '!' then Dispatch.dcommand
  else if running = true ∧ currentQuestion.isSome = true ∧ sender ≠ botName then Dispatch.danswer
  else Dispatch.dnone

/-- An event of the cooperative loop: an inbound chat message, or the expiry of
the pending timer with a given id. -/
inductive Event
  | msg (sender chan text : String)
  | fire (id : Nat)
deriving Repr, DecidableEq

/-- Run the body of a fired timer. -/
def runCb (s : BotState) (cb : TimerCb) : Except BotState BotState :=
  match cb with
  | TimerCb.nextQ q chan => Except.ok (fireNextQ s q chan)
  | TimerCb.total chan => fireTotal s chan
  | TimerCb.tip chan => fireTip s chan

/-- One turn of the event loop: a chat message goes through
`User.getUser(from, to)` (get-or-create registration) and the listener guard;
a fire runs one still-pending timer (a cancelled timer is gone from `pending`
and can no longer fire). -/
def step (s : BotState) (e : Event) : Except BotState BotState :=
  match e with
  | Event.msg sender chan text =>
      let s1 := { s with users := putUser s.users (getUser s.users sender) }
      match listenerDispatch s1.botName s1.running s1.currentQuestion sender text with
      | Dispatch.dcommand => handleCommand s1 sender chan text
      | Dispatch.danswer => Except.ok (handleAnswer s1 sender chan text)
      | Dispatch.dnone => Except.ok s1
  | Event.fire i =>
      match s.pending.find? (fun p => p.id == i) with
      | none => Except.ok s
      | some p =>
          let s1 := { s with pending := s.pending.filter (fun q => q.id != i) }
          runCb s1 p.cb

/-- Run a whole trace of events. -/
def run (s : BotState) (es : List Event) : Except BotState BotState :=
  es.foldlM step s

/-- State after the constructor (quizzbot.js lines 30-38): not running, no
current question, no timers, inactivity counter zero. -/
def initialState (botName : String) (ops : List String) (questions : List Question)
    (raw : RawOptions) : BotState :=
  { botName := botName
    ops := ops
    options := mkOptions raw
    questions := questions
    running := false
    currentQuestion := none
    continuousNoAnswerCount := 0
    nextQuestionTimer := none
    currentTotalTimer := none
    currentEndingSoonTimer := none
    pending := []
    nextTimerId := 0
    cursor := 0
    users := []
    outputs := [] }

/-! ## Supporting lemmas -/

@[simp] lemma jsOr_none (d : Int) : jsOr none d = d := rfl

@[simp] lemma jsOr_some (v d : Int) : jsOr (some v) d = if v = 0 then d else v := rfl

/-- The clamp floor of line 24: the effective question duration is at least
10000 ms whatever is configured. -/
lemma effQuestionDuration_ge (o : RawOptions) : 10000 ≤ effQuestionDuration o := by
  rcases h : o.questionDuration with _ | v
  · simp [effQuestionDuration, jsLt, jsOr, h]
  · simp [effQuestionDuration, jsLt, jsOr, h]
    split_ifs <;> omega

/-- `getUser` returns a record carrying the requested name. -/
lemma getUser_name (us : List UserRec) (name : String) : (getUser us name).name = name := by
  unfold getUser
  cases hf : us.find? (fun u => u.name == name) with
  | none => rfl
  | some u =>
      have := List.find?_some hf
      simpa using this

/-- Looking up the name just stored finds exactly the stored record. -/
lemma getUser_putUser (us : List UserRec) (u : UserRec) (name : String) (h : u.name = name) :
    getUser (putUser us u) name = u := by
  unfold getUser putUser
  rw [List.find?_append]
  have h1 : (us.filter (fun v => v.name != u.name)).find? (fun v => v.name == name) = none := by
    apply List.find?_eq_none.mpr
    intro x hx
    have hx2 := (List.mem_filter.mp hx).2
    simp only [bne_iff_ne, ne_eq] at hx2
    simp only [beq_iff_eq]
    intro heq
    exact hx2 (by rw [heq, h])
  rw [h1]
  simp [List.find?, h]

/-- Closed form of `clearGame`. -/
lemma clearGame_eq (s : BotState) :
    clearGame s =
      { s with currentQuestion := none
               pending := removeTimer (removeTimer s.pending s.currentEndingSoonTimer)
                            s.currentTotalTimer } := rfl

/-- The single stop announcement, keyed only on the inactivity counter. -/
def stopMsg (s : BotState) : Msg :=
  if s.options.continuousNoAnswer ≤ s.continuousNoAnswerCount then Msg.stoppingForInactivity
  else Msg.stoppingQuizz

/-- Closed form of the internal auto-stop (`stopCommand` with a null user)
from a running session. -/
lemma stopCommand_none_eq (s : BotState) (chan : String) (h : s.running = true) :
    stopCommand s none chan =
      { s with running := false
               currentQuestion := none
               pending := removeTimer (removeTimer (removeTimer s.pending
                            s.currentEndingSoonTimer) s.currentTotalTimer) s.nextQuestionTimer
               outputs := s.outputs ++ [Out.say chan (stopMsg s), Out.saved] } := by
  unfold stopCommand
  simp only [h, if_true, opRejected, Bool.not_eq_true]
  simp [clearGame, clearTimeout, say, saveUserlist, stopMsg]
  split_ifs <;> simp

/-- Closed form of the question cycle when a question is selected and the
inactivity limit is not reached: announce the delay and arm exactly one
next-question timer. -/
lemma game_sched_eq (s : BotState) (chan : String) (q : Question) (c' : Nat)
    (hq : getNextQuestion s.questions s.cursor = (some q, c'))
    (hcnt : s.continuousNoAnswerCount < s.options.continuousNoAnswer) :
    game s chan none =
      { s with cursor := c'
               outputs := s.outputs ++
                 [Out.say chan (Msg.nextQuestionIn (s.options.timeBetweenQuestion / 1000))]
               pending := s.pending ++
                 [{ id := s.nextTimerId, delay := s.options.timeBetweenQuestion,
                    cb := TimerCb.nextQ q chan }]
               nextTimerId := s.nextTimerId + 1
               nextQuestionTimer := some s.nextTimerId } := by
  unfold game
  simp only [hq]
  simp [say, setTimeout, hcnt]

/-- Closed form of the question cycle when it routes to stop: selection from a
running session found no question, or the inactivity limit is reached. -/
lemma game_stop_eq (s : BotState) (chan : String)
    (hrun : s.running = true)
    (hstop : (getNextQuestion s.questions s.cursor).1 = none ∨
             s.options.continuousNoAnswer ≤ s.continuousNoAnswerCount) :
    game s chan none =
      { s with cursor := (getNextQuestion s.questions s.cursor).2
               running := false
               currentQuestion := none
               pending := removeTimer (removeTimer (removeTimer s.pending
                            s.currentEndingSoonTimer) s.currentTotalTimer) s.nextQuestionTimer
               outputs := s.outputs ++ [Out.say chan (stopMsg s), Out.saved] } := by
  unfold game
  rcases hsel : getNextQuestion s.questions s.cursor with ⟨oq, c'⟩
  simp only [hsel]
  cases oq with
  | none =>
      rw [stopCommand_none_eq _ _ (by simpa using hrun)]
      rfl
  | some q =>
      rcases hstop with h1 | h2
      · rw [hsel] at h1; simp at h1
      · have hnl : ¬ (s.continuousNoAnswerCount < s.options.continuousNoAnswer) :=
          not_lt.mpr h2
        simp only [hnl, if_false]
        rw [stopCommand_none_eq _ _ (by simpa using hrun)]
        rfl

/-- The internal auto-stop leaves the userlist untouched. -/
lemma stopCommand_users_none (s : BotState) (chan : String) :
    (stopCommand s none chan).users = s.users := by
  by_cases h : s.running = true
  · rw [stopCommand_none_eq _ _ h]
  · unfold stopCommand
    simp [h]

/-- The internal auto-stop does not change the inactivity counter. -/
lemma stopCommand_cnt_none (s : BotState) (chan : String) :
    (stopCommand s none chan).continuousNoAnswerCount = s.continuousNoAnswerCount := by
  by_cases h : s.running = true
  · rw [stopCommand_none_eq _ _ h]
  · unfold stopCommand
    simp [h]

/-- The internal auto-stop arms no timer. -/
lemma stopCommand_nextTimerId_none (s : BotState) (chan : String) :
    (stopCommand s none chan).nextTimerId = s.nextTimerId := by
  by_cases h : s.running = true
  · rw [stopCommand_none_eq _ _ h]
  · unfold stopCommand
    simp [h]

/-- After the internal auto-stop the session is never running (it either was
already stopped, or it just set `running` to false). -/
lemma stopCommand_running_none (s : BotState) (chan : String) :
    (stopCommand s none chan).running = false := by
  by_cases h : s.running = true
  · rw [stopCommand_none_eq _ _ h]
  · unfold stopCommand
    simp [h]

/-- The internal auto-stop keeps `currentQuestion` cleared. -/
lemma stopCommand_cq_none (s : BotState) (chan : String) (h : s.currentQuestion = none) :
    (stopCommand s none chan).currentQuestion = none := by
  by_cases hr : s.running = true
  · rw [stopCommand_none_eq _ _ hr]
  · unfold stopCommand
    simp [hr, h]

/-- The internal auto-stop only appends to the outputs. -/
lemma stopCommand_outputs_ext_none (s : BotState) (chan : String) :
    ∃ tl, (stopCommand s none chan).outputs = s.outputs ++ tl := by
  by_cases h : s.running = true
  · exact ⟨[Out.say chan (stopMsg s), Out.saved], by rw [stopCommand_none_eq _ _ h]⟩
  · refine ⟨[], ?_⟩
    unfold stopCommand
    simp [h]

/-- The question cycle never touches the userlist. -/
lemma game_users_eq (s : BotState) (chan : String) (f : Option Question) :
    (game s chan f).users = s.users := by
  unfold game
  rcases hsel : (match f with
    | none => getNextQuestion s.questions s.cursor
    | some q => (some q, s.cursor)) with ⟨oq, c'⟩
  simp only [hsel]
  cases oq with
  | none => exact stopCommand_users_none _ _
  | some q =>
      by_cases hc : s.continuousNoAnswerCount < s.options.continuousNoAnswer
      · simp [hc, say, setTimeout]
      · simp only [hc, if_false]
        exact stopCommand_users_none _ _

/-- The question cycle itself never changes the inactivity counter. -/
lemma game_cnt_eq (s : BotState) (chan : String) (f : Option Question) :
    (game s chan f).continuousNoAnswerCount = s.continuousNoAnswerCount := by
  unfold game
  rcases hsel : (match f with
    | none => getNextQuestion s.questions s.cursor
    | some q => (some q, s.cursor)) with ⟨oq, c'⟩
  simp only [hsel]
  cases oq with
  | none => exact stopCommand_cnt_none _ _
  | some q =>
      by_cases hc : s.continuousNoAnswerCount < s.options.continuousNoAnswer
      · simp [hc, say, setTimeout]
      · simp only [hc, if_false]
        exact stopCommand_cnt_none _ _

/-- The question cycle never re-activates a question by itself. -/
lemma game_cq_none (s : BotState) (chan : String) (f : Option Question)
    (h : s.currentQuestion = none) :
    (game s chan f).currentQuestion = none := by
  unfold game
  rcases hsel : (match f with
    | none => getNextQuestion s.questions s.cursor
    | some q => (some q, s.cursor)) with ⟨oq, c'⟩
  simp only [hsel]
  cases oq with
  | none => exact stopCommand_cq_none _ _ h
  | some q =>
      by_cases hc : s.continuousNoAnswerCount < s.options.continuousNoAnswer
      · simp [hc, say, setTimeout, h]
      · simp only [hc, if_false]
        exact stopCommand_cq_none _ _ h

/-- The question cycle only appends to the outputs. -/
lemma game_outputs_ext (s : BotState) (chan : String) (f : Option Question) :
    ∃ tl, (game s chan f).outputs = s.outputs ++ tl := by
  unfold game
  rcases hsel : (match f with
    | none => getNextQuestion s.questions s.cursor
    | some q => (some q, s.cursor)) with ⟨oq, c'⟩
  simp only [hsel]
  cases oq with
  | none => exact stopCommand_outputs_ext_none _ _
  | some q =>
      by_cases hc : s.continuousNoAnswerCount < s.options.continuousNoAnswer
      · exact ⟨[Out.say chan (Msg.nextQuestionIn (s.options.timeBetweenQuestion / 1000))],
          by simp [hc, say, setTimeout]⟩
      · simp only [hc, if_false]
        exact stopCommand_outputs_ext_none _ _

/-- When selection finds nothing, the cycle is exactly the internal stop. -/
lemma game_noneSel_eq (s : BotState) (chan : String) (c' : Nat)
    (hsel : getNextQuestion s.questions s.cursor = (none, c')) :
    game s chan none = stopCommand { s with cursor := c' } none chan := by
  unfold game
  simp only [hsel]

/-- The user-record update of a correct answer (`incrementPoints` then
`plusGoodAnswer`, spec-modelled). -/
def goodAnswerUpd (u : UserRec) : UserRec :=
  { u with points := u.points + 1, goodAnswers := u.goodAnswers + 1, answers := u.answers + 1 }

/-- Closed form of `handleAnswer` on a matching answer, up to the re-entry
into the question cycle. -/
lemma handleAnswer_good_eq (s : BotState) (userName chan message : String) (q : Question)
    (hq : s.currentQuestion = some q) (hgood : isGoodAnswer q message = true) :
    handleAnswer s userName chan message =
      game { s with
              users := putUser s.users (goodAnswerUpd (getUser s.users userName))
              outputs := s.outputs ++
                [Out.say chan (Msg.goodAnswer userName ((getUser s.users userName).points + 1)),
                 Out.say chan (Msg.answerReveal q), Out.saved]
              continuousNoAnswerCount := 0
              currentQuestion := none
              pending := removeTimer (removeTimer s.pending s.currentEndingSoonTimer)
                           s.currentTotalTimer } chan none := by
  unfold handleAnswer
  simp only [hq]
  simp [hgood, goodAnswerUpd, say, saveUserlist, clearGame, clearTimeout]

/-- The state right after a (non-null-user) start from idle, before the
question cycle is entered. -/
def startEff (s : BotState) (u chan : String) : BotState :=
  { s with
      running := true
      users := putUser s.users
        { getUser s.users u with quizzStarted := (getUser s.users u).quizzStarted + 1 }
      outputs := s.outputs ++ [Out.say chan (Msg.requestedStart u), Out.say chan Msg.startingQuizz]
      continuousNoAnswerCount := 0 }

/-- Closed form of `startCommand` with a non-null user from idle. -/
lemma startCommand_some_eq (s : BotState) (u chan : String) (noGame : Bool)
    (h : s.running = false) :
    startCommand s (some u) chan noGame =
      Except.ok (if noGame then startEff s u chan else game (startEff s u chan) chan none) := by
  unfold startCommand
  simp [h, say, startEff]
  split_ifs <;> rfl

/-- `splitChars` always returns at least one chunk (as JS `split`). -/
lemma splitChars_ne_nil (sep : Char) (l : List Char) : splitChars sep l ≠ [] := by
  cases l with
  | nil => simp [splitChars]
  | cons c cs =>
      unfold splitChars
      by_cases hc : c = sep
      · simp [hc]
      · simp only [hc, if_false]
        rcases hr : splitChars sep cs with _ | ⟨h1, t1⟩ <;> simp

/-- When the split has no second chunk, the separator never occurred and the
single chunk is the whole input. -/
lemma splitChars_single (sep : Char) (l : List Char)
    (h : (splitChars sep l)[1]? = none) : splitChars sep l = [l] := by
  induction l with
  | nil => rfl
  | cons c cs ih =>
      by_cases hc : c = sep
      · exfalso
        unfold splitChars at h
        simp only [hc, if_true] at h
        rcases hr : splitChars sep cs with _ | ⟨h1, t1⟩
        · exact splitChars_ne_nil sep cs hr
        · rw [hr] at h
          simp at h
      · unfold splitChars at h ⊢
        simp only [hc, if_false] at h ⊢
        rcases hr : splitChars sep cs with _ | ⟨h1, t1⟩
        · exact absurd hr (splitChars_ne_nil sep cs)
        · rw [hr] at h
          have ht : t1 = [] := by
            cases t1 with
            | nil => rfl
            | cons a b => exact absurd h (by simp)
          subst ht
          have ihr : splitChars sep cs = [cs] := ih (by rw [hr]; rfl)
          rw [hr] at ihr
          have hcs : h1 = cs := by injection ihr
          show ((c :: h1) :: ([] : List (List Char))) = [c :: cs]
          rw [hcs]

/-! ## The claims -/

/-- **C7, counterexample.**  With `questionDuration := 20000` and
`timeBeforeTip := 18000` the configured tip lead does not exceed the duration,
so line 26 keeps it as configured; the effective tip lead 18000 exceeds
`questionDuration / 2 = 10000`, refuting "the effective value used to arm the
tip timer never exceeds questionDuration/2". -/
theorem C7_tip_lead_counterexample :
    ¬ ((mkOptions { questionDuration := some 20000, timeBeforeTip := some 18000 }).timeBeforeTip ≤
       (mkOptions { questionDuration := some 20000,
                    timeBeforeTip := some 18000 }).questionDuration / 2) := by
  decide

/-- **C7, amended.**  When the configured `timeBeforeTip` exceeds the effective
`questionDuration` it is replaced by `floor(questionDuration / 2)`; otherwise
the configured value (or the 10000 default) is used as-is, so the effective tip
lead is only bounded by `questionDuration`, not by `questionDuration / 2`. -/
theorem C7_tip_lead_clamp (o : RawOptions) :
    (jsGt o.timeBeforeTip (mkOptions o).questionDuration = true →
      (mkOptions o).timeBeforeTip = (mkOptions o).questionDuration / 2) ∧
    (mkOptions o).timeBeforeTip ≤ (mkOptions o).questionDuration := by
  have hge : 10000 ≤ effQuestionDuration o := effQuestionDuration_ge o
  constructor
  · intro hgt
    show jsOr (if jsGt o.timeBeforeTip (effQuestionDuration o)
               then some (effQuestionDuration o / 2)
               else o.timeBeforeTip) 10000 = effQuestionDuration o / 2
    have hgt' : jsGt o.timeBeforeTip (effQuestionDuration o) = true := hgt
    simp only [hgt', if_true, jsOr_some]
    split_ifs with h0 <;> omega
  · show jsOr (if jsGt o.timeBeforeTip (effQuestionDuration o)
               then some (effQuestionDuration o / 2)
               else o.timeBeforeTip) 10000 ≤ effQuestionDuration o
    by_cases hgt : jsGt o.timeBeforeTip (effQuestionDuration o) = true
    · simp only [hgt, if_true, jsOr_some]
      split_ifs with h0 <;> omega
    · simp only [hgt, if_false]
      rcases h : o.timeBeforeTip with _ | v
      · simpa using hge
      · rw [h] at hgt
        unfold jsGt at hgt
        simp at hgt
        simp
        split_ifs with h0 <;> omega

/-- **C7, witness** for the amended theorem, at a configuration where the
replacement branch applies (tip 30000 against duration 20000). -/
theorem C7_tip_lead_clamp_witness :
    (jsGt ({ questionDuration := some 20000, timeBeforeTip := some 30000 } :
        RawOptions).timeBeforeTip
       (mkOptions { questionDuration := some 20000,
                    timeBeforeTip := some 30000 }).questionDuration = true →
      (mkOptions { questionDuration := some 20000,
                   timeBeforeTip := some 30000 }).timeBeforeTip =
      (mkOptions { questionDuration := some 20000,
                   timeBeforeTip := some 30000 }).questionDuration / 2) ∧
    (mkOptions { questionDuration := some 20000,
                 timeBeforeTip := some 30000 }).timeBeforeTip ≤
    (mkOptions { questionDuration := some 20000,
                 timeBeforeTip := some 30000 }).questionDuration :=
  C7_tip_lead_clamp { questionDuration := some 20000, timeBeforeTip := some 30000 }

/-- **C8.**  Any configured `questionDuration` strictly below 10000 is clamped
up to exactly 10000 (line 24 of the constructor). -/
theorem C8_questionDuration_floor (o : RawOptions) (v : Int)
    (hv : o.questionDuration = some v) (hlt : v < 10000) :
    (mkOptions o).questionDuration = 10000 := by
  show effQuestionDuration o = 10000
  simp [effQuestionDuration, jsLt, hv, hlt]

/-- **C8, witness** at the concrete configuration `questionDuration := 500`. -/
theorem C8_questionDuration_floor_witness :
    (mkOptions { questionDuration := some 500 }).questionDuration = 10000 :=
  C8_questionDuration_floor { questionDuration := some 500 } 500 rfl (by decide)

/-- **C9, counterexample.**  The line `what is 2+2?` contains no backslash
delimiter (its split has no second field), yet `loadQuestions` does NOT skip
it: the pool receives one question for it, whose single answer entry is the JS
`undefined` — refuting "every unparseable line contributes no Question". -/
theorem C9_malformed_line_counterexample :
    (jsSplit '\\' "what is 2+2?")[1]? = none ∧
    loadQuestionsTxt ["what is 2+2?"] =
      [{ question := "what is 2+2?", answers := [none], tip := none }] := by
  constructor
  · decide
  · decide

/-- **C9, amended.**  The text loader never skips a line: every line,
parseable or not, contributes exactly one Question, and loading continues
across lines (best-effort).  A line without the backslash delimiter yields a
Question whose prompt is the whole line and whose single answer entry is
`undefined`; a line with the delimiter yields its trimmed second field as the
answer. -/
theorem C9_txt_load_never_skips (lines : List String) :
    (loadQuestionsTxt lines).length = lines.length ∧
    ∀ line ∈ lines,
      ((jsSplit '\\' line)[1]? = none →
        parseTxtLine line = { question := line, answers := [none], tip := none }) ∧
      (∀ a, (jsSplit '\\' line)[1]? = some a →
        (parseTxtLine line).answers = [some (jsTrim a)]) := by
  refine ⟨by simp [loadQuestionsTxt], fun line _ => ⟨fun hno => ?_, fun a ha => ?_⟩⟩
  · have hsingle : splitChars '\\' line.data = [line.data] := by
      apply splitChars_single
      have h' := hno
      unfold jsSplit at h'
      simpa using h'
    have hj : jsSplit '\\' line = [line] := by
      unfold jsSplit
      rw [hsingle]
      rfl
    have hq : parseTxtLine line =
        { question := (jsSplit '\\' line).headD ""
          answers := [Option.map jsTrim ((jsSplit '\\' line)[1]?)], tip := none } := rfl
    rw [hq, hj]
    rfl
  · have hq : (parseTxtLine line).answers =
        [Option.map jsTrim ((jsSplit '\\' line)[1]?)] := rfl
    rw [hq, ha]
    rfl

/-- **C9, witness** for the amended theorem on a two-line bank: one good line,
one malformed line. -/
theorem C9_txt_load_never_skips_witness :
    (loadQuestionsTxt ["2+2?\\ 4 ", "what is 3+3?"]).length =
      (["2+2?\\ 4 ", "what is 3+3?"] : List String).length ∧
    ∀ line ∈ (["2+2?\\ 4 ", "what is 3+3?"] : List String),
      ((jsSplit '\\' line)[1]? = none →
        parseTxtLine line = { question := line, answers := [none], tip := none }) ∧
      (∀ a, (jsSplit '\\' line)[1]? = some a →
        (parseTxtLine line).answers = [some (jsTrim a)]) :=
  C9_txt_load_never_skips ["2+2?\\ 4 ", "what is 3+3?"]

/-- **C10.**  The listener guard: a message from the bot itself is routed
nowhere; a message of length at most 1 or not starting with `!` is never
dispatched as a command; and a message is evaluated as an answer only when the
session is running with an active question (and the sender is not the bot). -/
theorem C10_listener_guard (botName sender message : String) (running : Bool)
    (cq : Option Question) :
    (sender = botName →
      listenerDispatch botName running cq sender message = Dispatch.dnone) ∧
    ((message.length ≤ 1 ∨ message.front ≠ '!') →
      listenerDispatch botName running cq sender message ≠ Dispatch.dcommand) ∧
    (listenerDispatch botName running cq sender message = Dispatch.danswer →
      running = true ∧ cq.isSome = true ∧ sender ≠ botName) := by
  unfold listenerDispatch
  by_cases h1 : sender ≠ botName ∧ 1 < message.length ∧ message.front = '!'
  · rw [if_pos h1]
    refine ⟨fun hs => absurd hs h1.1, fun hlen => ?_, fun hd => by simp at hd⟩
    rcases hlen with hl | hf
    · exact absurd h1.2.1 (by omega)
    · exact absurd h1.2.2 hf
  · rw [if_neg h1]
    by_cases h2 : running = true ∧ cq.isSome = true ∧ sender ≠ botName
    · rw [if_pos h2]
      exact ⟨fun hs => absurd hs h2.2.2, fun _ => by decide, fun _ => h2⟩
    · rw [if_neg h2]
      exact ⟨fun _ => rfl, fun _ => by decide, fun hd => by simp at hd⟩

/-- **C10, witness** at concrete inputs (bot name `bot`, sender `bot`,
message `hello`). -/
theorem C10_listener_guard_witness :
    ("bot" = "bot" →
      listenerDispatch "bot" true none "bot" "hello" = Dispatch.dnone) ∧
    (("hello" : String).length ≤ 1 ∨ ("hello" : String).front ≠ '!' →
      listenerDispatch "bot" true none "bot" "hello" ≠ Dispatch.dcommand) ∧
    (listenerDispatch "bot" true none "bot" "hello" = Dispatch.danswer →
      true = true ∧ (none : Option Question).isSome = true ∧ "bot" ≠ "bot") :=
  C10_listener_guard "bot" "bot" "hello" true none

/-- A concrete two-question pool for the timer traces. -/
def qCapital : Question := { question := "capital of France", answers := [some "Paris"] }

/-- A concrete question whose accepted answer is `4`. -/
def qSum : Question := { question := "2+2", answers := [some "4"] }

/-- A session over the two-question pool, with `oscar` as channel operator. -/
def demoState : BotState := initialState "bot" ["oscar"] [qCapital, qSum] {}

/-- **C1.**  The claim fails on the code (`clearGame`, lines 148-153, does not
cancel `nextQuestionTimer`, and `askQuestionCommand`, lines 375-385, re-enters
`game` without cancelling it).  Trace: `alice` sends `!start` (a next-question
timer, id 0, is armed), then operator `oscar` sends `!ask 2`.  After these two
events TWO next-question timers are pending at once — not the exactly-one next
cycle the claim requires.  Letting both fire and then firing the superseded
round's resolution timer (id 2) shows a callback armed for a superseded state
taking effect: it announces no-answer and reveals the answer of the NEW round
(`qSum`), clears it, schedules yet another cycle, and leaves the superseded
round's tip timer still pending. -/
theorem C1_stale_next_timer_double_schedule :
    ((match run demoState [Event.msg "alice" "#c" "!start", Event.msg "oscar" "#c" "!ask 2"] with
      | Except.ok s => s.pending.countP (fun p =>
          match p.cb with | TimerCb.nextQ _ _ => true | _ => false)
      | Except.error _ => 0) = 2) ∧
    ((match run demoState [Event.msg "alice" "#c" "!start", Event.msg "oscar" "#c" "!ask 2",
                           Event.fire 0, Event.fire 1, Event.fire 2] with
      | Except.ok s => decide (Out.say "#c" Msg.noGoodAnswer ∈ s.outputs ∧
          Out.say "#c" (Msg.answerReveal qSum) ∈ s.outputs ∧
          s.currentQuestion = none ∧
          s.pending.any (fun p => decide (p.cb = TimerCb.tip "#c")) = true)
      | Except.error _ => false) = true) := by
  constructor
  · decide
  · decide

/-- **C2.**  The claim fails on the code, through the same stale timer: after
`!start`, `!ask 2` (which leaves timer 0 armed), `!stop` (which cancels only
the newest next-question timer) and the firing of the stale timer 0, the
session has `running = false` while `currentQuestion` is non-null — refuting
"currentQuestion is never non-null while running is false". -/
theorem C2_invariant_violated_by_stale_timer :
    (match run demoState [Event.msg "alice" "#c" "!start", Event.msg "oscar" "#c" "!ask 2",
                          Event.msg "oscar" "#c" "!stop", Event.fire 0] with
     | Except.ok s => decide (s.running = false ∧ s.currentQuestion = some qCapital)
     | Except.error _ => false) = true := by
  decide

/-- **C3.**  When the question cycle runs on a running session and either
selection finds no question (with no forced question supplied) or the
inactivity counter has reached the limit, it stops with a null requester
instead of presenting a question (no timer is armed), and the stop announces
the inactivity message exactly when `continuousNoAnswerCount` has reached the
limit, else the normal stopped message. -/
theorem C3_cycle_routes_to_stop (s : BotState) (chan : String)
    (hrun : s.running = true)
    (hstop : (getNextQuestion s.questions s.cursor).1 = none ∨
             s.options.continuousNoAnswer ≤ s.continuousNoAnswerCount) :
    (game s chan none).running = false ∧
    (game s chan none).nextTimerId = s.nextTimerId ∧
    (game s chan none).outputs = s.outputs ++
      [Out.say chan (if s.options.continuousNoAnswer ≤ s.continuousNoAnswerCount
                     then Msg.stoppingForInactivity else Msg.stoppingQuizz),
       Out.saved] := by
  rw [game_stop_eq s chan hrun hstop]
  exact ⟨rfl, rfl, rfl⟩

/-- An empty-pool running session, used to exercise the stop path. -/
def emptyPoolRunning : BotState := { initialState "bot" [] [] {} with running := true }

/-- **C3, witness**: the empty-pool running session stops with the normal
stopped message (its inactivity counter 0 is below the default limit 8). -/
theorem C3_cycle_routes_to_stop_witness :
    (game emptyPoolRunning "#c" none).running = false ∧
    (game emptyPoolRunning "#c" none).nextTimerId = emptyPoolRunning.nextTimerId ∧
    (game emptyPoolRunning "#c" none).outputs = emptyPoolRunning.outputs ++
      [Out.say "#c" (if emptyPoolRunning.options.continuousNoAnswer ≤
                        emptyPoolRunning.continuousNoAnswerCount
                     then Msg.stoppingForInactivity else Msg.stoppingQuizz),
       Out.saved] :=
  C3_cycle_routes_to_stop emptyPoolRunning "#c" rfl (Or.inl (by decide))

/-- A session whose operator list is empty: nobody is an operator. -/
def noOpsState : BotState := initialState "bot" [] [qCapital] {}

/-- **C4, counterexample.**  `mallory` is not an operator, yet `!start` from
idle takes full effect (lines 281-293 perform no operator check): the session
starts running and announces the start — refuting "requires the requester to
be a channel operator before any effect". -/
theorem C4_no_operator_check_counterexample :
    isOp noOpsState "mallory" = false ∧
    (match startCommand noOpsState (some "mallory") "#c" false with
     | Except.ok s => decide (s.running = true ∧
         Out.say "#c" (Msg.requestedStart "mallory") ∈ s.outputs)
     | Except.error _ => false) = true := by
  constructor
  · decide
  · decide

/-- **C4, amended.**  `startCommand` is effective only from idle (a running
session is returned unchanged), performs NO operator check — any non-null
requester starts the session: inactivity counter reset to 0, the requester's
`quizzStarted` incremented, the start announced, and (without the internal
`noGame` flag) the question cycle entered; a null requester does not complete:
the code raises a `TypeError` dereferencing `user.name` after `running` was
already set to true. -/
theorem C4_start_idle_only_no_op_check (s : BotState) (u chan : String)
    (h : s.running = false) :
    (∀ noGame, ∃ s', startCommand s (some u) chan noGame = Except.ok s' ∧
        s'.continuousNoAnswerCount = 0 ∧
        getUser s'.users u =
          { getUser s.users u with quizzStarted := (getUser s.users u).quizzStarted + 1 } ∧
        Out.say chan (Msg.requestedStart u) ∈ s'.outputs ∧
        (noGame = true → s'.running = true)) ∧
    (∃ e, startCommand s none chan true = Except.error e ∧ e.running = true) ∧
    (∀ s₂ : BotState, s₂.running = true →
        ∀ v ng, startCommand s₂ (some v) chan ng = Except.ok s₂) := by
  have hname : ({ getUser s.users u with
      quizzStarted := (getUser s.users u).quizzStarted + 1 } : UserRec).name = u :=
    getUser_name s.users u
  refine ⟨fun noGame => ?_, ⟨{ s with running := true }, ?_, rfl⟩, fun s₂ h₂ v ng => ?_⟩
  · rw [startCommand_some_eq s u chan noGame h]
    cases noGame with
    | true =>
        refine ⟨startEff s u chan, rfl, rfl, ?_, ?_, fun _ => rfl⟩
        · exact getUser_putUser _ _ _ hname
        · simp [startEff]
    | false =>
        refine ⟨game (startEff s u chan) chan none, rfl, ?_, ?_, ?_, by simp⟩
        · rw [game_cnt_eq]
          rfl
        · rw [game_users_eq]
          exact getUser_putUser _ _ _ hname
        · obtain ⟨tl, htl⟩ := game_outputs_ext (startEff s u chan) chan none
          rw [htl]
          simp [startEff]
  · unfold startCommand
    simp [h]
  · unfold startCommand
    simp [h₂]

/-- **C4, witness** for the amended theorem, at the concrete idle session with
no operators and requester `alice`. -/
theorem C4_start_idle_only_no_op_check_witness :
    (∀ noGame, ∃ s', startCommand noOpsState (some "alice") "#c" noGame = Except.ok s' ∧
        s'.continuousNoAnswerCount = 0 ∧
        getUser s'.users "alice" =
          { getUser noOpsState.users "alice" with
              quizzStarted := (getUser noOpsState.users "alice").quizzStarted + 1 } ∧
        Out.say "#c" (Msg.requestedStart "alice") ∈ s'.outputs ∧
        (noGame = true → s'.running = true)) ∧
    (∃ e, startCommand noOpsState none "#c" true = Except.error e ∧ e.running = true) ∧
    (∀ s₂ : BotState, s₂.running = true →
        ∀ v ng, startCommand s₂ (some v) "#c" ng = Except.ok s₂) :=
  C4_start_idle_only_no_op_check noOpsState "alice" "#c" rfl

/-- **C5, counterexample.**  With the two-question pool, a running session and
operator `oscar` issuing `!ask 99` (there is no 99th question, so the forced
index is invalid), the session does NOT stop: the undefined forced question
falls through to normal pool selection, and the next pool question (`qSum`) is
scheduled — refuting "routes to stop; it does not present some other question
selected from the pool". -/
theorem C5_invalid_index_counterexample :
    jsIndex demoState.questions (some 99) = none ∧
    (match run demoState [Event.msg "alice" "#c" "!start", Event.msg "oscar" "#c" "!ask 99"] with
     | Except.ok s => decide (s.running = true ∧
         s.pending.any (fun p => decide (p.cb = TimerCb.nextQ qSum "#c")) = true ∧
         Out.say "#c" Msg.stoppingQuizz ∉ s.outputs ∧
         Out.say "#c" Msg.stoppingForInactivity ∉ s.outputs)
     | Except.error _ => false) = true := by
  constructor
  · decide
  · decide

/-- **C5, amended.**  An operator's `!ask` with an invalid index does not force
a question and does not (by itself) stop the session: the cycle falls back to
normal pool selection, and whenever selection finds a question while the
inactivity limit is not reached, that pool question is scheduled and the
session keeps running; it routes to stop only when fallback selection finds
nothing or the limit is reached. -/
theorem C5_invalid_index_falls_back (s : BotState) (u chan : String) (n : Int)
    (q : Question) (c' : Nat)
    (hop : isOp s u = true) (hrun : s.running = true)
    (hinv : jsIndex s.questions (some n) = none)
    (hq : getNextQuestion s.questions s.cursor = (some q, c'))
    (hcnt : s.continuousNoAnswerCount < s.options.continuousNoAnswer) :
    ∃ s', askQuestionCommand s (some u) chan (some n) = Except.ok s' ∧
      s'.running = true ∧
      (∃ p, p ∈ s'.pending ∧ p.cb = TimerCb.nextQ q chan ∧
            p.delay = s.options.timeBetweenQuestion) ∧
      s'.outputs = s.outputs ++
        [Out.say chan (Msg.nextQuestionIn (s.options.timeBetweenQuestion / 1000))] := by
  have hrej : opRejected s (some u) = false := by
    unfold opRejected
    simp [hop]
  have hsched := game_sched_eq (clearGame s) chan q c' hq hcnt
  refine ⟨game (clearGame s) chan none, ?_, ?_, ?_, ?_⟩
  · unfold askQuestionCommand
    rw [hrej]
    simp only [Bool.false_eq_true, if_false, hrun, if_true]
    have : jsIndex (clearGame s).questions (some n) = none := hinv
    rw [this]
  · rw [hsched]
    exact hrun
  · rw [hsched]
    refine ⟨{ id := (clearGame s).nextTimerId, delay := (clearGame s).options.timeBetweenQuestion,
              cb := TimerCb.nextQ q chan }, ?_, rfl, rfl⟩
    simp
  · rw [hsched]
    rfl

/-- A running one-question session with `oscar` as operator, awaiting its
first question. -/
def askWitnessState : BotState :=
  { initialState "bot" ["oscar"] [qCapital] {} with running := true }

/-- **C5, witness** for the amended theorem: `!ask 5` on the one-question
running session schedules the pool question `qCapital`. -/
theorem C5_invalid_index_falls_back_witness :
    ∃ s', askQuestionCommand askWitnessState (some "oscar") "#c" (some 5) = Except.ok s' ∧
      s'.running = true ∧
      (∃ p, p ∈ s'.pending ∧ p.cb = TimerCb.nextQ qCapital "#c" ∧
            p.delay = askWitnessState.options.timeBetweenQuestion) ∧
      s'.outputs = askWitnessState.outputs ++
        [Out.say "#c" (Msg.nextQuestionIn (askWitnessState.options.timeBetweenQuestion / 1000))] :=
  C5_invalid_index_falls_back askWitnessState "oscar" "#c" 5 qCapital 1
    (by decide) rfl (by decide) (by decide) (by decide)

/-- A session whose pool holds only `qSum`. -/
def onePoolState : BotState := initialState "bot" [] [qSum] {}

/-- **C6, counterexample.**  On the one-question pool: `!start`, the
next-question timer fires (`qSum` becomes active), then `alice` answers `4`
correctly.  Scoring, reset, clearing and persisting all happen, but the claim's
final conjunct fails: no next question cycle is scheduled — the pool is
exhausted, so the cycle routes to stop instead (`running` becomes false, no
timer is pending). -/
theorem C6_no_next_cycle_counterexample :
    isGoodAnswer qSum "4" = true ∧
    (match run onePoolState [Event.msg "alice" "#c" "!start", Event.fire 0,
                             Event.msg "alice" "#c" "4"] with
     | Except.ok s => decide ((getUser s.users "alice").points = 1 ∧
         (getUser s.users "alice").goodAnswers = 1 ∧
         s.running = false ∧ s.pending = [] ∧
         Out.say "#c" Msg.stoppingQuizz ∈ s.outputs)
     | Except.error _ => false) = true := by
  constructor
  · decide
  · decide

/-- **C6, amended.**  A matching answer to the active question awards the user
one point, one correct-answer credit and one total-answer, announces success
with the updated point total, reveals the answer, resets the inactivity
counter to 0, clears the active question and its timers, persists, and re-enters
the question cycle — which schedules exactly one next question after
`timeBetweenQuestions` when pool selection finds one (and the inactivity limit
is positive), and otherwise stops the session without scheduling anything. -/
theorem C6_correct_answer_effects (s : BotState) (userName chan message : String)
    (q : Question)
    (hq : s.currentQuestion = some q) (hgood : isGoodAnswer q message = true) :
    (getUser (handleAnswer s userName chan message).users userName).points =
        (getUser s.users userName).points + 1 ∧
    (getUser (handleAnswer s userName chan message).users userName).goodAnswers =
        (getUser s.users userName).goodAnswers + 1 ∧
    (getUser (handleAnswer s userName chan message).users userName).answers =
        (getUser s.users userName).answers + 1 ∧
    (handleAnswer s userName chan message).continuousNoAnswerCount = 0 ∧
    (handleAnswer s userName chan message).currentQuestion = none ∧
    Out.say chan (Msg.goodAnswer userName ((getUser s.users userName).points + 1)) ∈
        (handleAnswer s userName chan message).outputs ∧
    Out.say chan (Msg.answerReveal q) ∈ (handleAnswer s userName chan message).outputs ∧
    Out.saved ∈ (handleAnswer s userName chan message).outputs ∧
    (∀ q' c', getNextQuestion s.questions s.cursor = (some q', c') →
        0 < s.options.continuousNoAnswer →
        (handleAnswer s userName chan message).nextTimerId = s.nextTimerId + 1 ∧
        ∃ p, p ∈ (handleAnswer s userName chan message).pending ∧
          p.id = s.nextTimerId ∧ p.cb = TimerCb.nextQ q' chan ∧
          p.delay = s.options.timeBetweenQuestion) ∧
    (∀ c', getNextQuestion s.questions s.cursor = (none, c') →
        (handleAnswer s userName chan message).running = false ∧
        (handleAnswer s userName chan message).nextTimerId = s.nextTimerId) := by
  rw [handleAnswer_good_eq s userName chan message q hq hgood]
  set X : BotState := { s with
      users := putUser s.users (goodAnswerUpd (getUser s.users userName))
      outputs := s.outputs ++
        [Out.say chan (Msg.goodAnswer userName ((getUser s.users userName).points + 1)),
         Out.say chan (Msg.answerReveal q), Out.saved]
      continuousNoAnswerCount := 0
      currentQuestion := none
      pending := removeTimer (removeTimer s.pending s.currentEndingSoonTimer)
                   s.currentTotalTimer } with hXdef
  have hname : (goodAnswerUpd (getUser s.users userName)).name = userName :=
    getUser_name s.users userName
  have husers : getUser (putUser s.users (goodAnswerUpd (getUser s.users userName))) userName =
      goodAnswerUpd (getUser s.users userName) :=
    getUser_putUser _ _ _ hname
  refine ⟨?_, ?_, ?_, ?_, ?_, ?_, ?_, ?_, ?_, ?_⟩
  · rw [game_users_eq]
    show (getUser (putUser s.users (goodAnswerUpd (getUser s.users userName))) userName).points = _
    rw [husers]
    rfl
  · rw [game_users_eq]
    show (getUser (putUser s.users (goodAnswerUpd (getUser s.users userName))) userName).goodAnswers = _
    rw [husers]
    rfl
  · rw [game_users_eq]
    show (getUser (putUser s.users (goodAnswerUpd (getUser s.users userName))) userName).answers = _
    rw [husers]
    rfl
  · rw [game_cnt_eq]
  · exact game_cq_none _ _ _ rfl
  · obtain ⟨tl, htl⟩ := game_outputs_ext _ chan none
    rw [htl]
    simp
  · obtain ⟨tl, htl⟩ := game_outputs_ext _ chan none
    rw [htl]
    simp
  · obtain ⟨tl, htl⟩ := game_outputs_ext _ chan none
    rw [htl]
    simp
  · intro q' c' hq' hpos
    have hq2 : getNextQuestion X.questions X.cursor = (some q', c') := hq'
    have hcnt2 : X.continuousNoAnswerCount < X.options.continuousNoAnswer := hpos
    rw [game_sched_eq X chan q' c' hq2 hcnt2]
    refine ⟨rfl, { id := X.nextTimerId, delay := X.options.timeBetweenQuestion,
                   cb := TimerCb.nextQ q' chan }, by simp, rfl, rfl, rfl⟩
  · intro c' hnone
    have hnone2 : getNextQuestion X.questions X.cursor = (none, c') := hnone
    rw [game_noneSel_eq X chan c' hnone2]
    exact ⟨stopCommand_running_none _ _, stopCommand_nextTimerId_none _ _⟩

/-- A session with `qSum` active, a two-question pool and the cursor past the
first question, as it is right after the first question was presented. -/
def answerWitnessState : BotState :=
  { initialState "bot" [] [qSum, qCapital] {} with
      running := true, currentQuestion := some qSum, cursor := 1 }

/-- **C6, witness** for the amended theorem: `alice` answers ` 4 ` (matching
up to whitespace) while `qSum` is active; a next pool question is available. -/
theorem C6_correct_answer_effects_witness :
    (getUser (handleAnswer answerWitnessState "alice" "#c" " 4 ").users "alice").points =
        (getUser answerWitnessState.users "alice").points + 1 ∧
    (getUser (handleAnswer answerWitnessState "alice" "#c" " 4 ").users "alice").goodAnswers =
        (getUser answerWitnessState.users "alice").goodAnswers + 1 ∧
    (getUser (handleAnswer answerWitnessState "alice" "#c" " 4 ").users "alice").answers =
        (getUser answerWitnessState.users "alice").answers + 1 ∧
    (handleAnswer answerWitnessState "alice" "#c" " 4 ").continuousNoAnswerCount = 0 ∧
    (handleAnswer answerWitnessState "alice" "#c" " 4 ").currentQuestion = none ∧
    Out.say "#c" (Msg.goodAnswer "alice"
        ((getUser answerWitnessState.users "alice").points + 1)) ∈
      (handleAnswer answerWitnessState "alice" "#c" " 4 ").outputs ∧
    Out.say "#c" (Msg.answerReveal qSum) ∈
      (handleAnswer answerWitnessState "alice" "#c" " 4 ").outputs ∧
    Out.saved ∈ (handleAnswer answerWitnessState "alice" "#c" " 4 ").outputs ∧
    (∀ q' c', getNextQuestion answerWitnessState.questions answerWitnessState.cursor =
          (some q', c') →
        0 < answerWitnessState.options.continuousNoAnswer →
        (handleAnswer answerWitnessState "alice" "#c" " 4 ").nextTimerId =
          answerWitnessState.nextTimerId + 1 ∧
        ∃ p, p ∈ (handleAnswer answerWitnessState "alice" "#c" " 4 ").pending ∧
          p.id = answerWitnessState.nextTimerId ∧ p.cb = TimerCb.nextQ q' "#c" ∧
          p.delay = answerWitnessState.options.timeBetweenQuestion) ∧
    (∀ c', getNextQuestion answerWitnessState.questions answerWitnessState.cursor =
          (none, c') →
        (handleAnswer answerWitnessState "alice" "#c" " 4 ").running = false ∧
        (handleAnswer answerWitnessState "alice" "#c" " 4 ").nextTimerId =
          answerWitnessState.nextTimerId) :=
  C6_correct_answer_effects answerWitnessState "alice" "#c" " 4 " qSum rfl (by decide)

end QuizzBot
